import Mathlib

/-!
Verification of the request-admission layer and signup orchestration of the
lariyu auxiliary backend (src/server/index.js), as a shallow embedding in
Lean 4.  Times are milliseconds since epoch, modelled as `Int`; counters are
`Nat`.  The express-rate-limit / express-slow-down middleware internals are
not part of the repository source, so the counter-store and check semantics
are modelled from the specification (doc comments marked "Modelled from the
spec"); everything else is translated directly from src/server/index.js.
-/

namespace Lariyu

/-- A fixed-window counter as held by the counter store for one key:
the current count and the absolute time at which the window expires
(`windowStartedAt + windowDuration`). -/
structure WindowCounter where
  count : Nat
  resetAt : Int
deriving DecidableEq

/-- A counter store maps rate-limit keys to their window counters.
Each middleware instance owns a separate store. -/
abbrev Store := String → Option WindowCounter

def Store.empty : Store := fun _ => none

def Store.update (s : Store) (k : String) (c : WindowCounter) : Store :=
  fun k2 => if k2 = k then some c else s k2

/-- Modelled from the spec: `CounterStore.increment(key, windowDuration)`
(§4.1, the express-rate-limit memory store is not repository source).
If no counter exists, or the current time exceeds the stored window end,
create/reset to count 1 with a fresh window; otherwise increment and keep
the existing `resetAt`.  Returns `((count, resetAt), newStore)`. -/
def Store.increment (s : Store) (key : String) (windowMs : Int) (now : Int) :
    (Nat × Int) × Store :=
  match s key with
  | none => ((1, now + windowMs), s.update key ⟨1, now + windowMs⟩)
  | some c =>
    if c.resetAt < now then
      ((1, now + windowMs), s.update key ⟨1, now + windowMs⟩)
    else
      ((c.count + 1, c.resetAt), s.update key ⟨c.count + 1, c.resetAt⟩)

/-- Configuration of one rate limiter: `windowMs` and `max` as passed to
`rateLimit({...})` in src/server/index.js. -/
structure LimiterCfg where
  windowMs : Int
  maxCount : Nat
deriving DecidableEq

/-- The per-request decision data exposed by a limiter (`req.rateLimit`). -/
structure AdmissionDecision where
  admitted : Bool
  current : Nat
  limit : Nat
  remaining : Nat
  resetAt : Int
deriving DecidableEq

/-- The decision produced from a post-increment count `n` and window end `r`:
admitted iff `n ≤ maxCount`, `remaining` is the truncated difference. -/
def mkDecision (cfg : LimiterCfg) (n : Nat) (r : Int) : AdmissionDecision :=
  { admitted := n ≤ cfg.maxCount, current := n, limit := cfg.maxCount,
    remaining := cfg.maxCount - n, resetAt := r }

/-- Modelled from the spec: `RateLimiter.check` (§4.3) — compute the key
(done by the caller here), increment the counter, admit iff the resulting
count is ≤ maxCount.  Every call consumes one increment. -/
def limiterCheck (cfg : LimiterCfg) (key : String) (now : Int) (s : Store) :
    AdmissionDecision × Store :=
  let r := s.increment key cfg.windowMs now
  (mkDecision cfg r.1.1 r.1.2, r.2)

/-- Ceiling of `x / 1000` on integers (the JS `Math.ceil((..)/1000)`). -/
def ceilDiv1000 (x : Int) : Int := (x + 999).fdiv 1000

/-- The `Retry-After` value set by `rateLimitHandler` (src line 168):
`Math.ceil((resetTime - now)/1000) || 60`.  A missing reset time gives `NaN`
and hence the fallback 60; a zero result also falls back to 60; any other
value (including a negative one) passes through. -/
def retryAfterValue (resetTime : Option Int) (now : Int) : Int :=
  match resetTime with
  | none => 60
  | some rt => if ceilDiv1000 (rt - now) = 0 then 60 else ceilDiv1000 (rt - now)

/-- An HTTP response of the signup route, covering every field any branch
of src/server/index.js sets. -/
structure HttpResponse where
  status : Nat
  error : Option String
  message : Option String
  emailEcho : Option String
  retryAfterHeader : Option Int
  remaining : Option Nat
  limit : Option Nat
deriving DecidableEq

/-- `rateLimitHandler` (src lines 157-177): the 429 response, with the
`Retry-After` header and a hard-coded `remaining: 0` in the JSON body. -/
def rateLimitHandler (d : AdmissionDecision) (now : Int) : HttpResponse :=
  { status := 429, error := some "Too many requests",
    message := some "Please try again later", emailEcho := none,
    retryAfterHeader := some (retryAfterValue (some d.resetAt) now),
    remaining := some 0, limit := some d.limit }

/-- JS `String.prototype.startsWith` on the character level. -/
def startsWithStr (s pre : String) : Bool :=
  decide (s.data.take pre.data.length = pre.data)

/-- `skipStaticPaths` (src lines 179-182): the global limiter is skipped on
these path prefixes. -/
def skipStaticPaths (p : String) : Bool :=
  ["/health", "/metrics", "/favicon.ico"].any (fun sp => startsWithStr p sp)

/-- The global limiter (src lines 185-196): 15-minute window, max 300. -/
def globalCfg : LimiterCfg := { windowMs := 15 * 60 * 1000, maxCount := 300 }

/-- `signupLimiter` (src lines 202-211): 1-hour window, max 5, per IP. -/
def signupIpCfg : LimiterCfg := { windowMs := 60 * 60 * 1000, maxCount := 5 }

/-- `emailSignupLimiter` (src lines 214-228): 1-hour window, max 3. -/
def signupEmailCfg : LimiterCfg := { windowMs := 60 * 60 * 1000, maxCount := 3 }

/-- `deviceSignupLimiter` (src lines 231-243): 1-hour window, max 5. -/
def signupDeviceCfg : LimiterCfg := { windowMs := 60 * 60 * 1000, maxCount := 5 }

/-- `apiKeyLimiter` (src lines 246-261): 15-minute window, max 1000. -/
def apiKeyCfg : LimiterCfg := { windowMs := 15 * 60 * 1000, maxCount := 1000 }

/-- `signupSlowDown` window (src line 265). -/
def slowDownWindowMs : Int := 15 * 60 * 1000

/-- `delayAfter: 2` (src line 266): number of free hits. -/
def slowDelayAfter : Nat := 2

/-- `delayMs` callback of `signupSlowDown` (src line 267):
`Math.min(Math.pow(2, hits - 2) * 1000, 30000)`. -/
def slowDownDelayMs (hits : Nat) : Nat := min (2 ^ (hits - 2) * 1000) 30000

/-- Modelled from the spec: express-slow-down (not repository source) applies
the `delayMs` callback only once the hit count exceeds `delayAfter` (§4.4,
"applies only once a configurable free-hit threshold is exceeded"); below
that the delay is 0. -/
def slowDownDelay (hits : Nat) : Nat :=
  if hits ≤ slowDelayAfter then 0 else slowDownDelayMs hits

/-! ### SHA-256, modelled from the spec

`generateFingerprint` (src lines 94-103) calls Node's
`crypto.createHash('sha256')`, which is not repository source; the spec
(§4.2) prescribes a SHA-256 digest over the concatenated header tuple,
truncated to a short hex length.  The digest is implemented here from the
standard SHA-256 description, on `Nat` with explicit 32-bit truncation. -/

/-- Truncation to 32 bits. -/
def w32 (n : Nat) : Nat := n % 4294967296

/-- Right rotation of a 32-bit word by `k < 32` bits. -/
def rotr32 (x k : Nat) : Nat := w32 (x / 2 ^ k + x % 2 ^ k * 2 ^ (32 - k))

/-- Logical right shift. -/
def shr32 (x k : Nat) : Nat := x / 2 ^ k

/-- Bitwise complement on 32 bits (for `x < 2^32`). -/
def not32 (x : Nat) : Nat := 4294967295 - x % 4294967296

def bsig0 (x : Nat) : Nat := Nat.xor (Nat.xor (rotr32 x 2) (rotr32 x 13)) (rotr32 x 22)

def bsig1 (x : Nat) : Nat := Nat.xor (Nat.xor (rotr32 x 6) (rotr32 x 11)) (rotr32 x 25)

def ssig0 (x : Nat) : Nat := Nat.xor (Nat.xor (rotr32 x 7) (rotr32 x 18)) (shr32 x 3)

def ssig1 (x : Nat) : Nat := Nat.xor (Nat.xor (rotr32 x 17) (rotr32 x 19)) (shr32 x 10)

def ch32 (x y z : Nat) : Nat := Nat.xor (Nat.land x y) (Nat.land (not32 x) z)

def maj32 (x y z : Nat) : Nat :=
  Nat.xor (Nat.xor (Nat.land x y) (Nat.land x z)) (Nat.land y z)

/-- Primality by trial division (adequate for the small primes below). -/
def isSmallPrime (n : Nat) : Bool :=
  2 ≤ n && ((List.range 20).drop 2).all (fun d => d * d > n || n % d ≠ 0)

/-- The first `count` primes (all the ones needed lie below 400). -/
def firstPrimes (count : Nat) : List Nat :=
  ((List.range 400).filter isSmallPrime).take count

/-- Bisection for integer roots: keeps `lo ^ e ≤ n < hi ^ e` and returns
the floor of the e-th root once the bracket closes. -/
def rootAux (e n : Nat) : Nat → Nat → Nat → Nat
  | 0, lo, _ => lo
  | fuel + 1, lo, hi =>
    if hi ≤ lo + 1 then lo
    else
      let mid := (lo + hi) / 2
      if mid ^ e ≤ n then rootAux e n fuel mid hi else rootAux e n fuel lo mid

/-- Integer cube root (floor), for arguments below `2 ^ 120`. -/
def cbrtNat (n : Nat) : Nat := rootAux 3 n 60 0 (2 ^ 40)

/-- Integer square root (floor), for arguments below `2 ^ 80`. -/
def sqrtNat (n : Nat) : Nat := rootAux 2 n 60 0 (2 ^ 40)

/-- The 64 SHA-256 round constants: the first 32 bits of the fractional
parts of the cube roots of the first 64 primes (FIPS 180-4 §4.2.2),
computed as `floor(cbrt(p * 2^96)) mod 2^32`. -/
def sha256K : List Nat :=
  (firstPrimes 64).map (fun p => cbrtNat (p * 2 ^ 96) % 2 ^ 32)

/-- The SHA-256 initial hash value: the first 32 bits of the fractional
parts of the square roots of the first 8 primes (FIPS 180-4 §5.3.3),
computed as `sqrt(p * 2^64) mod 2^32`. -/
def sha256H0 : List Nat :=
  (firstPrimes 8).map (fun p => sqrtNat (p * 2 ^ 64) % 2 ^ 32)

/-- SHA-256 padding of a byte message: append 0x80, zero bytes up to 56 mod
64, then the bit length as 8 big-endian bytes. -/
def sha256Pad (ms : List Nat) : List Nat :=
  ms ++ [128] ++ List.replicate ((119 - ms.length % 64) % 64) 0
     ++ (List.range 8).map (fun i => 8 * ms.length / 2 ^ (8 * (7 - i)) % 256)

/-- Split a (padded) byte list into 64-byte blocks. -/
def chunks64 (l : List Nat) : List (List Nat) :=
  (List.range (l.length / 64)).map (fun i => (l.drop (64 * i)).take 64)

/-- The 16 initial 32-bit message words of a 64-byte block (big-endian). -/
def bytesToWords (block : List Nat) : List Nat :=
  (List.range 16).map (fun j => ((block.drop (4 * j)).take 4).foldl (fun a b => a * 256 + b) 0)

/-- Message-schedule extension of the 16 words to 64. -/
def sha256Schedule (ws0 : List Nat) : List Nat :=
  (List.range 48).foldl
    (fun ws i =>
      ws ++ [w32 (ssig1 (ws.getD (i + 14) 0) + ws.getD (i + 9) 0
                  + ssig0 (ws.getD (i + 1) 0) + ws.getD i 0)])
    ws0

/-- The eight working variables of the compression loop. -/
structure Sha256State where
  a : Nat
  b : Nat
  c : Nat
  d : Nat
  e : Nat
  f : Nat
  g : Nat
  h : Nat

/-- One SHA-256 round. -/
def sha256Round (k w : Nat) (s : Sha256State) : Sha256State :=
  let t1 := w32 (s.h + bsig1 s.e + ch32 s.e s.f s.g + k + w)
  let t2 := w32 (bsig0 s.a + maj32 s.a s.b s.c)
  ⟨w32 (t1 + t2), s.a, s.b, s.c, w32 (s.d + t1), s.e, s.f, s.g⟩

/-- Compression of one 64-byte block into the running hash (8 words). -/
def sha256Block (hs : List Nat) (block : List Nat) : List Nat :=
  let ws := sha256Schedule (bytesToWords block)
  let init : Sha256State :=
    ⟨hs.getD 0 0, hs.getD 1 0, hs.getD 2 0, hs.getD 3 0,
     hs.getD 4 0, hs.getD 5 0, hs.getD 6 0, hs.getD 7 0⟩
  let fin := (List.range 64).foldl
    (fun s i => sha256Round (sha256K.getD i 0) (ws.getD i 0) s) init
  [hs.getD 0 0 + fin.a, hs.getD 1 0 + fin.b, hs.getD 2 0 + fin.c,
   hs.getD 3 0 + fin.d, hs.getD 4 0 + fin.e, hs.getD 5 0 + fin.f,
   hs.getD 6 0 + fin.g, hs.getD 7 0 + fin.h].map w32

/-- The eight 32-bit hash words of a byte message. -/
def sha256Words (ms : List Nat) : List Nat :=
  (chunks64 (sha256Pad ms)).foldl sha256Block sha256H0

/-- The SHA-256 digest of a byte message as one 256-bit natural number
(big-endian concatenation of the hash words). -/
def sha256Nat (ms : List Nat) : Nat :=
  (sha256Words ms).foldl (fun a w => a * 4294967296 + w) 0

/-- Modelled from the spec: UTF-8 encoding of one character (the Node hash
update consumes the string's UTF-8 bytes). -/
def utf8Bytes (c : Char) : List Nat :=
  let n := c.toNat
  if n < 128 then [n]
  else if n < 2048 then [192 + n / 64, 128 + n % 64]
  else if n < 65536 then [224 + n / 4096, 128 + n / 64 % 64, 128 + n % 64]
  else [240 + n / 262144, 128 + n / 4096 % 64, 128 + n / 64 % 64, 128 + n % 64]

/-- UTF-8 bytes of a string. -/
def strBytes (s : String) : List Nat :=
  s.data.foldr (fun c acc => utf8Bytes c ++ acc) []

/-- Lower-case hex digit for `n < 16`. -/
def hexDigitChar (n : Nat) : Char :=
  if n < 10 then Char.ofNat (48 + n) else Char.ofNat (87 + n)

/-- Zero-padded lower-case hex rendering of `n` on `len` digits
(big-endian), as produced by `digest('hex')`. -/
def hexPad (len n : Nat) : String :=
  String.mk ((List.range len).map (fun i => hexDigitChar (n / 16 ^ (len - 1 - i) % 16)))

/-! ### Requests, key strategies, validation -/

/-- The signup request body `{email, password, firstName, lastName}`.
Absent JSON fields are `none`. -/
structure SignupBody where
  email : Option String
  password : Option String
  firstName : Option String
  lastName : Option String
deriving DecidableEq

/-- The parts of an inbound request the admission layer reads: `req.ip`,
the three fingerprint headers, the `x-api-key` header, `req.path` and the
parsed body. -/
structure Request where
  ip : String
  userAgent : Option String
  acceptLanguage : Option String
  acceptEncoding : Option String
  xApiKey : Option String
  path : String
  body : SignupBody
deriving DecidableEq

/-- ASCII lower-casing of one character (JS `toLowerCase` restricted to the
ASCII range, which is all the admission layer relies on). -/
def charLower (c : Char) : Char :=
  if 65 ≤ c.toNat ∧ c.toNat ≤ 90 then Char.ofNat (c.toNat + 32) else c

/-- JS `String.prototype.toLowerCase`. -/
def lowerStr (s : String) : String := String.mk (s.data.map charLower)

/-- JS `String.prototype.trim`: strip leading and trailing whitespace. -/
def trimStr (s : String) : String :=
  String.mk (((s.data.dropWhile Char.isWhitespace).reverse.dropWhile
    Char.isWhitespace).reverse)

/-- JS falsiness of an optional string value: absent or empty. -/
def strFalsy (o : Option String) : Bool :=
  match o with
  | none => true
  | some s => decide (s.data = [])

/-- `ipKeyGenerator(req, res)` of express-rate-limit: the canonicalized
client network address, i.e. `req.ip`. -/
def ipKeyGenerator (req : Request) : String := req.ip

/-- Key of `signupLimiter` (src line 209). -/
def signupIpKey (req : Request) : String := "signup:ip:" ++ ipKeyGenerator req

/-- The normalized email key value (src line 225):
`req.body.email.toLowerCase().trim()` behind the `signup:email:` scope. -/
def emailKeyOf (e : String) : String := "signup:email:" ++ trimStr (lowerStr e)

/-- Failure modes of a key generator: the explicit
`throw new Error('Email is required')` of `emailSignupLimiter` (src line
223), and the `ReferenceError` raised by `apiKeyLimiter`'s fallback branch
(src line 256), whose `res` identifier is not bound in its `(req)` arrow
function. -/
inductive KeyGenFailure where
  | emailRequired
  | resNotDefined
deriving DecidableEq

/-- `emailSignupLimiter.keyGenerator` (src lines 221-226): throws when
`req.body.email` is falsy, else returns the normalized email key. -/
def emailKeyGen (body : SignupBody) : Except KeyGenFailure String :=
  if strFalsy body.email then Except.error KeyGenFailure.emailRequired
  else Except.ok (emailKeyOf (body.email.getD ""))

/-- `apiKeyLimiter.keyGenerator` (src lines 253-259): with a truthy
`x-api-key` header it returns `api:key:<value>`; without one it evaluates
`ipKeyGenerator(req, res)` where `res` is not in scope, so the call raises
`ReferenceError: res is not defined` instead of producing a key. -/
def apiKeyKeyGen (req : Request) : Except KeyGenFailure String :=
  if strFalsy req.xApiKey then Except.error KeyGenFailure.resNotDefined
  else Except.ok ("api:key:" ++ req.xApiKey.getD "")

/-- `generateFingerprint` components (src lines 95-100):
`[user-agent, accept-language, accept-encoding, ip].join('|')`, each
defaulting to the empty string. -/
def fingerprintComponents (req : Request) : String :=
  req.userAgent.getD "" ++ "|" ++ req.acceptLanguage.getD "" ++ "|"
    ++ req.acceptEncoding.getD "" ++ "|" ++ req.ip

/-- `generateFingerprint` (src lines 94-103): the SHA-256 hex digest of the
joined components, truncated to its first 16 hex characters — equivalently
the 16-digit hex rendering of the top 64 bits of the 256-bit digest. -/
def generateFingerprint (req : Request) : String :=
  hexPad 16 (sha256Nat (strBytes (fingerprintComponents req)) / 2 ^ 192)

/-- Key of `deviceSignupLimiter` (src lines 238-241). -/
def deviceKey (req : Request) : String := "signup:device:" ++ generateFingerprint req

/-- `sanitizeInput` (src lines 317-320): trim, then strip angle brackets. -/
def sanitizeInput (s : String) : String :=
  String.mk ((trimStr s).data.filter (fun c => c ≠ '<' ∧ c ≠ '>'))

/-- Split a character list at every occurrence of `sep`. -/
def splitOnChar (sep : Char) : List Char → List (List Char)
  | [] => [[]]
  | c :: cs =>
    if c = sep then [] :: splitOnChar sep cs
    else
      match splitOnChar sep cs with
      | [] => [[c]]
      | h :: t => (c :: h) :: t

/-- `validateEmail` (src lines 312-315): the regex
`^[^\s@]+@[^\s@]+\.[^\s@]+$` — exactly one `@`, a nonempty local part, no
whitespace, and a dot strictly inside the domain part. -/
def validateEmail (s : String) : Bool :=
  match splitOnChar '@' s.data with
  | [a, r] =>
    !a.isEmpty && a.all (fun c => !c.isWhitespace)
      && r.all (fun c => !c.isWhitespace)
      && (r.drop 1).dropLast.contains '.'
  | _ => false

/-- The `name && name.length > 50` test of the handler (src lines 393 and
399): a missing or falsy name never fails, a present name fails when longer
than 50 characters. -/
def nameTooLong (o : Option String) : Bool :=
  match o with
  | some f => f.length > 50
  | none => false

/-- The first validation failure of the handler's checks (src lines
364-403), with the field-specific message it responds with; `none` when the
body passes validation.  The conditions and their order are verbatim from
the source: required-fields check on the sanitized lower-cased email and the
raw password, email format, password length, then the two name lengths. -/
def firstValidationError (body : SignupBody) : Option String :=
  let email := body.email.map (fun e => lowerStr (sanitizeInput e))
  if strFalsy email || strFalsy body.password then
    some "Email and password are required"
  else if !validateEmail (email.getD "") then
    some "Invalid email format"
  else if (body.password.getD "").length < 8 then
    some "Password must be at least 8 characters"
  else if nameTooLong (body.firstName.map sanitizeInput) then
    some "First name is too long"
  else if nameTooLong (body.lastName.map sanitizeInput) then
    some "Last name is too long"
  else
    none

/-! ### Signup orchestration (the route handler) -/

/-- Result of `supabase.auth.admin.generateLink` as seen by the handler:
either the action link, or an error whose message the handler inspects. -/
inductive LinkResult where
  | ok (actionLink : String)
  | err (message : String)
deriving DecidableEq

/-- Result of `transporter.sendMail`. -/
inductive MailResult where
  | ok
  | err (message : String)
deriving DecidableEq

/-- The handler's response together with which external calls were made. -/
structure HandlerOutcome where
  response : HttpResponse
  linkCalled : Bool
  mailCalled : Bool
deriving DecidableEq

/-- Substring test (JS `String.prototype.includes`). -/
def strContains (hay needle : String) : Bool :=
  (List.range (hay.data.length + 1)).any
    (fun i => decide ((hay.data.drop i).take needle.data.length = needle.data))

/-- The async route handler of `POST /api/signup` (src lines 360-497),
parametrized by the results of the two external calls.  Validation is
factored through `firstValidationError`, whose checks are verbatim the
handler's early returns; after validation: `generateLink` errors whose
message contains "already registered" give 409, any other link error is
thrown and caught as the generic 500, then `sendMail` failure is caught as
the same generic 500, and success echoes the normalized email with 200. -/
def signupHandler (body : SignupBody) (link : LinkResult) (mail : MailResult) :
    HandlerOutcome :=
  match firstValidationError body with
  | some msg => ⟨⟨400, some msg, none, none, none, none, none⟩, false, false⟩
  | none =>
    match link with
    | LinkResult.err m =>
      if strContains m "already registered" then
        ⟨⟨409, some "Email already registered", none, none, none, none, none⟩,
         true, false⟩
      else
        ⟨⟨500, some "Error processing signup. Please try again later.",
          none, none, none, none, none⟩, true, false⟩
    | LinkResult.ok _ =>
      match mail with
      | MailResult.err _ =>
        ⟨⟨500, some "Error processing signup. Please try again later.",
          none, none, none, none, none⟩, true, true⟩
      | MailResult.ok =>
        ⟨⟨200, none, some "Confirmation email sent successfully",
          some (lowerStr (sanitizeInput (body.email.getD ""))), none, none, none⟩,
         true, true⟩

/-! ### The admission pipeline of POST /api/signup -/

/-- The five counter stores involved in a signup request: one per
middleware instance (src lines 185-269); express keeps them disjoint. -/
structure PipelineState where
  globalStore : Store
  slowStore : Store
  ipStore : Store
  emailStore : Store
  deviceStore : Store

/-- Everything a signup request produces: the response, the stores after
the request, the slow-down delay served, and which external calls ran. -/
structure RouteResult where
  response : HttpResponse
  state : PipelineState
  delayMs : Nat
  linkCalled : Bool
  mailCalled : Bool

/-- The response of the express global error handler (src lines 510-520),
reached when a middleware throws (`err.status` is unset on the errors
thrown by the key generators, so the status is 500). -/
def errorHandlerResponse : HttpResponse :=
  ⟨500, some "Internal server error", none, none, none, none, none⟩

/-- The signup middleware chain after the global limiter (src lines
355-360): `signupSlowDown`, `signupLimiter`, `emailSignupLimiter`,
`deviceSignupLimiter`, then the handler.  Modelled from the spec for the
express chaining semantics (§4.5): guards run strictly in this order, a
rejecting guard responds via `rateLimitHandler` without calling `next`, and
a thrown key-generation error is forwarded to the global error handler;
either way no later middleware runs. -/
def signupRest (req : Request) (now : Int) (st : PipelineState)
    (link : LinkResult) (mail : MailResult) : RouteResult :=
  let sd := st.slowStore.increment (ipKeyGenerator req) slowDownWindowMs now
  let delay := slowDownDelay sd.1.1
  let st1 := { st with slowStore := sd.2 }
  let ipc := limiterCheck signupIpCfg (signupIpKey req) now st1.ipStore
  let st2 := { st1 with ipStore := ipc.2 }
  if ipc.1.admitted then
    match emailKeyGen req.body with
    | Except.error _ => ⟨errorHandlerResponse, st2, delay, false, false⟩
    | Except.ok ekey =>
      let ec := limiterCheck signupEmailCfg ekey now st2.emailStore
      let st3 := { st2 with emailStore := ec.2 }
      if ec.1.admitted then
        let dc := limiterCheck signupDeviceCfg (deviceKey req) now st3.deviceStore
        let st4 := { st3 with deviceStore := dc.2 }
        if dc.1.admitted then
          let h := signupHandler req.body link mail
          ⟨h.response, st4, delay, h.linkCalled, h.mailCalled⟩
        else ⟨rateLimitHandler dc.1 now, st4, delay, false, false⟩
      else ⟨rateLimitHandler ec.1 now, st3, delay, false, false⟩
  else ⟨rateLimitHandler ipc.1 now, st2, delay, false, false⟩

/-- A request to `POST /api/signup` end to end: the global limiter
(`app.use(limiter)`, src line 199, skipped on the static paths) in front of
the signup chain. -/
def signupRoute (req : Request) (now : Int) (st : PipelineState)
    (link : LinkResult) (mail : MailResult) : RouteResult :=
  if skipStaticPaths req.path then signupRest req now st link mail
  else
    let g := limiterCheck globalCfg (ipKeyGenerator req) now st.globalStore
    let st1 := { st with globalStore := g.2 }
    if g.1.admitted then signupRest req now st1 link mail
    else ⟨rateLimitHandler g.1 now, st1, 0, false, false⟩

/-! ### Shared concrete inputs for witnesses and counterexamples -/

/-- A fresh pipeline state: all five stores empty. -/
def emptyState : PipelineState :=
  ⟨Store.empty, Store.empty, Store.empty, Store.empty, Store.empty⟩

/-- A concrete signup request with a well-formed body. -/
def reqOk : Request :=
  ⟨"203.0.113.7", some "Mozilla/5.0", some "en-US", some "gzip", none,
   "/api/signup", ⟨some "user@example.com", some "password123", some "Ann", none⟩⟩

/-- A concrete signup request whose body has no email field. -/
def reqNoEmail : Request :=
  ⟨"203.0.113.7", some "Mozilla/5.0", some "en-US", some "gzip", none,
   "/api/signup", ⟨none, some "password123", none, none⟩⟩

/-- A concrete request carrying an `x-api-key` header. -/
def reqWithApiKey : Request :=
  ⟨"203.0.113.7", some "Mozilla/5.0", some "en-US", some "gzip", some "SECRET",
   "/api/signup", ⟨none, none, none, none⟩⟩

/-- The same request without the `x-api-key` header. -/
def reqNoApiKeyHdr : Request := { reqWithApiKey with xApiKey := none }

/-! ### C3 — SlowDown delay curve -/

/-- C3: the claim's example values are wrong.  At hit 3 the code's delay is
`min(2^(3-2)*1000, 30000) = 2000` ms, not the claimed 1000 ms. -/
theorem C3_counterexample : slowDownDelay 3 = 2000 ∧ slowDownDelay 3 ≠ 1000 := by
  decide

/-- C3 (amended): the SlowDown delay is 0 up to the free-hit threshold 2,
otherwise `min(2^(hits-2)*1000, 30000)`; it is monotonically non-decreasing
and never exceeds the 30000 ms cap, and with base 1000 ms, cap 30000 ms,
threshold 2 the delays are hit 2 → 0, hit 3 → 2000, hit 4 → 4000,
hit 5 → 8000, hit 10 → 30000 (capped). -/
theorem C3_delay_curve (h1 h2 : Nat) (hle : h1 ≤ h2) :
    slowDownDelay h1 ≤ slowDownDelay h2 ∧
    slowDownDelay h2 ≤ 30000 ∧
    slowDownDelay (min h1 2) = 0 ∧
    slowDownDelay (h1 + 3) = min (2 ^ (h1 + 3 - 2) * 1000) 30000 ∧
    slowDownDelay 2 = 0 ∧ slowDownDelay 3 = 2000 ∧ slowDownDelay 4 = 4000 ∧
    slowDownDelay 5 = 8000 ∧ slowDownDelay 10 = 30000 := by
  refine ⟨?_, ?_, ?_, ?_, by decide, by decide, by decide, by decide, by decide⟩
  · by_cases ha : h1 ≤ slowDelayAfter
    · simp [slowDownDelay, ha]
    · have hb : ¬ h2 ≤ slowDelayAfter := fun hb => ha (le_trans hle hb)
      simp only [slowDownDelay, ha, hb, if_false, slowDownDelayMs]
      exact min_le_min
        (Nat.mul_le_mul_right _
          (Nat.pow_le_pow_right (by norm_num) (by omega))) le_rfl
  · unfold slowDownDelay slowDownDelayMs
    split
    · exact Nat.zero_le _
    · exact Nat.min_le_right _ _
  · have hm : min h1 2 ≤ slowDelayAfter := Nat.min_le_right h1 2
    simp [slowDownDelay, hm]
  · have hg : ¬ (h1 + 3 ≤ slowDelayAfter) := by unfold slowDelayAfter; omega
    simp only [slowDownDelay, hg, if_false, slowDownDelayMs]

/-- C3 witness: the amended statement at hits 3 and 10. -/
theorem C3_delay_curve_witness :
    slowDownDelay 3 ≤ slowDownDelay 10 ∧
    slowDownDelay 10 ≤ 30000 ∧
    slowDownDelay (min 3 2) = 0 ∧
    slowDownDelay (3 + 3) = min (2 ^ (3 + 3 - 2) * 1000) 30000 ∧
    slowDownDelay 2 = 0 ∧ slowDownDelay 3 = 2000 ∧ slowDownDelay 4 = 4000 ∧
    slowDownDelay 5 = 8000 ∧ slowDownDelay 10 = 30000 :=
  C3_delay_curve 3 10 (by decide)

/-! ### C7 — email key normalization -/

/-- C7: the email key strategy is invariant under letter case and
surrounding whitespace: any two submitted emails equal after lower-casing
and trimming derive the identical rate-limit key, and hence drive the email
limiter identically (one shared quota). -/
theorem C7_email_key_normalized (e1 e2 : String) (now : Int) (s : Store)
    (h : trimStr (lowerStr e1) = trimStr (lowerStr e2)) :
    emailKeyOf e1 = emailKeyOf e2 ∧
    limiterCheck signupEmailCfg (emailKeyOf e1) now s
      = limiterCheck signupEmailCfg (emailKeyOf e2) now s := by
  have hk : emailKeyOf e1 = emailKeyOf e2 := by unfold emailKeyOf; rw [h]
  exact ⟨hk, by rw [hk]⟩

/-- C7 witness: `"  USER@Example.com"` and `"user@example.com"` share one
key and one quota. -/
theorem C7_email_key_normalized_witness :
    emailKeyOf "  USER@Example.com" = emailKeyOf "user@example.com" ∧
    limiterCheck signupEmailCfg (emailKeyOf "  USER@Example.com") 0 Store.empty
      = limiterCheck signupEmailCfg (emailKeyOf "user@example.com") 0 Store.empty :=
  C7_email_key_normalized "  USER@Example.com" "user@example.com" 0 Store.empty
    (by decide)

/-! ### C8 — credential key strategy -/

/-- C8: with a (truthy) `x-api-key` header the credential strategy returns
`api:key:<value>`; without one the code does NOT fall back to the
caller-address key: its fallback branch evaluates `ipKeyGenerator(req, res)`
with `res` unbound, raising `ReferenceError: res is not defined`. -/
theorem C8_api_key_strategy :
    (∀ (c : Char) (rest : List Char),
      apiKeyKeyGen { reqNoEmail with xApiKey := some (String.mk (c :: rest)) }
        = Except.ok ("api:key:" ++ String.mk (c :: rest))) ∧
    apiKeyKeyGen reqNoApiKeyHdr = Except.error KeyGenFailure.resNotDefined ∧
    apiKeyKeyGen reqWithApiKey = Except.ok "api:key:SECRET" := by
  refine ⟨?_, rfl, rfl⟩
  intro c rest
  simp [apiKeyKeyGen, strFalsy]

/-! ### C9 — device fingerprint -/

theorem w32_lt (n : Nat) : w32 n < 2 ^ 32 := by
  have h : w32 n < 4294967296 := Nat.mod_lt _ (by norm_num)
  calc w32 n < 4294967296 := h
    _ = 2 ^ 32 := by norm_num

theorem sha256Block_bound (hs block : List Nat) :
    (sha256Block hs block).length = 8 ∧ ∀ x ∈ sha256Block hs block, x < 2 ^ 32 := by
  constructor
  · simp only [sha256Block, List.length_map, List.length_cons, List.length_nil]
  · intro x hx
    simp only [sha256Block] at hx
    obtain ⟨y, _, rfl⟩ := List.mem_map.1 hx
    exact w32_lt y

theorem foldl_blocks_bound (bs : List (List Nat)) :
    ∀ hs : List Nat, hs.length = 8 → (∀ x ∈ hs, x < 2 ^ 32) →
      (bs.foldl sha256Block hs).length = 8 ∧
        ∀ x ∈ bs.foldl sha256Block hs, x < 2 ^ 32 := by
  induction bs with
  | nil => intro hs h1 h2; exact ⟨h1, h2⟩
  | cons b bs ih =>
    intro hs _ _
    exact ih _ (sha256Block_bound hs b).1 (sha256Block_bound hs b).2

theorem sha256Words_bound (ms : List Nat) :
    (sha256Words ms).length = 8 ∧ ∀ x ∈ sha256Words ms, x < 2 ^ 32 :=
  foldl_blocks_bound (chunks64 (sha256Pad ms)) sha256H0 (by decide) (by decide)

theorem foldl_digit_bound (B : Nat) (l : List Nat) :
    ∀ (acc C : Nat), (∀ x ∈ l, x < B) → acc < C →
      l.foldl (fun a w => a * B + w) acc < C * B ^ l.length := by
  induction l with
  | nil => intro acc C _ hacc; simpa using hacc
  | cons x xs ih =>
    intro acc C hl hacc
    have hx : x < B := hl x (List.mem_cons_self _ _)
    have h1 : acc * B + x < C * B := by
      have hs : acc * B + B = (acc + 1) * B := by ring
      have hm : (acc + 1) * B ≤ C * B := Nat.mul_le_mul_right _ (by omega)
      omega
    have h3 := ih (acc * B + x) (C * B) (fun y hy => hl y (List.mem_cons_of_mem _ hy)) h1
    calc xs.foldl (fun a w => a * B + w) (acc * B + x)
        < C * B * B ^ xs.length := h3
      _ = C * B ^ (x :: xs).length := by
          simp [List.length_cons, pow_succ]; ring

theorem sha256Nat_lt (ms : List Nat) : sha256Nat ms < 2 ^ 256 := by
  unfold sha256Nat
  obtain ⟨hlen, hmem⟩ := sha256Words_bound ms
  have h := foldl_digit_bound 4294967296 (sha256Words ms) 0 1
    (by intro x hx; have := hmem x hx; omega) (by norm_num)
  rw [hlen] at h
  calc (sha256Words ms).foldl (fun a w => a * 4294967296 + w) 0
      < 1 * 4294967296 ^ 8 := h
    _ = 2 ^ 256 := by norm_num

/-- The device key as a function of the header tuple only. -/
def deviceKeyTuple (ua al ae : Option String) (ip : String) : String :=
  "signup:device:" ++ hexPad 16
    (sha256Nat (strBytes (ua.getD "" ++ "|" ++ al.getD "" ++ "|"
      ++ ae.getD "" ++ "|" ++ ip)) / 2 ^ 192)

/-- C9 (amended): the device-fingerprint key is a deterministic function of
the tuple (user-agent, accept-language, accept-encoding, caller address) —
identical tuples always yield the identical key — and two requests
differing only in caller address feed different component strings to the
digest; equality of the truncated digests themselves is however possible
(see the counterexample), so distinct addresses are only guaranteed
distinct digest inputs, not distinct keys. -/
theorem C9_fingerprint_deterministic (r : Request) (ip2 : String)
    (hne : r.ip ≠ ip2) :
    deviceKey r = deviceKeyTuple r.userAgent r.acceptLanguage r.acceptEncoding r.ip ∧
    deviceKey { r with ip := ip2 }
      = deviceKeyTuple r.userAgent r.acceptLanguage r.acceptEncoding ip2 ∧
    fingerprintComponents r ≠ fingerprintComponents { r with ip := ip2 } := by
  refine ⟨rfl, rfl, ?_⟩
  intro h
  apply hne
  have h2 := congrArg String.data h
  simp only [fingerprintComponents] at h2
  have h3 : (r.userAgent.getD "").data ++ ('|' :: ((r.acceptLanguage.getD "").data
      ++ ('|' :: ((r.acceptEncoding.getD "").data ++ ('|' :: r.ip.data)))))
      = (r.userAgent.getD "").data ++ ('|' :: ((r.acceptLanguage.getD "").data
      ++ ('|' :: ((r.acceptEncoding.getD "").data ++ ('|' :: ip2.data))))) := by
    simpa [String.data] using h2
  have h4 := List.append_cancel_left h3
  have h5 := List.append_cancel_left (List.cons_injective.eq_iff.mp h4)
  have h6 := List.append_cancel_left (List.cons_injective.eq_iff.mp h5)
  have h7 : r.ip.data = ip2.data := List.cons_injective.eq_iff.mp h6
  exact congrArg String.mk h7

/-- C9 witness: the amended statement at two concrete requests differing
only in address. -/
theorem C9_fingerprint_deterministic_witness :
    deviceKey reqOk
      = deviceKeyTuple reqOk.userAgent reqOk.acceptLanguage reqOk.acceptEncoding reqOk.ip ∧
    deviceKey { reqOk with ip := "198.51.100.9" }
      = deviceKeyTuple reqOk.userAgent reqOk.acceptLanguage reqOk.acceptEncoding "198.51.100.9" ∧
    fingerprintComponents reqOk ≠ fingerprintComponents { reqOk with ip := "198.51.100.9" } :=
  C9_fingerprint_deterministic reqOk "198.51.100.9" (by decide)

/-- The top 64 bits of the device digest, as a function of the caller
address for one fixed header tuple. -/
def fpTop64 (ip : String) : Fin (2 ^ 64) :=
  ⟨sha256Nat (strBytes (fingerprintComponents { reqOk with ip := ip })) / 2 ^ 192, by
    refine (Nat.div_lt_iff_lt_mul (by positivity)).2 ?_
    calc sha256Nat (strBytes (fingerprintComponents { reqOk with ip := ip }))
        < 2 ^ 256 := sha256Nat_lt _
      _ = 2 ^ 64 * 2 ^ 192 := by norm_num⟩

theorem generateFingerprint_factor (ip : String) :
    generateFingerprint { reqOk with ip := ip } = hexPad 16 (fpTop64 ip).val := rfl

/-- C9 counterexample: it is NOT the case that two requests differing only
in caller address always yield different device keys — the key keeps only
64 bits of the digest, and there are more address strings than 64-bit
values (pigeonhole), so some two distinct addresses with the same header
tuple share a key. -/
theorem C9_counterexample :
    ¬ ∀ (r1 r2 : Request), r1.userAgent = r2.userAgent →
        r1.acceptLanguage = r2.acceptLanguage →
        r1.acceptEncoding = r2.acceptEncoding →
        r1.ip ≠ r2.ip → deviceKey r1 ≠ deviceKey r2 := by
  intro hcl
  obtain ⟨x, y, hxy, hf⟩ := Finite.exists_ne_map_eq_of_infinite fpTop64
  refine hcl { reqOk with ip := x } { reqOk with ip := y } rfl rfl rfl hxy ?_
  show deviceKey { reqOk with ip := x } = deviceKey { reqOk with ip := y }
  unfold deviceKey
  rw [generateFingerprint_factor, generateFingerprint_factor, hf]

/-! ### C2 — admit exactly the first min(N, M) within one window -/

/-- Repeated `check` calls of one limiter on one key, one per listed call
time, threading the store. -/
def checkSeq (cfg : LimiterCfg) (key : String) (ts : List Int) (s : Store) :
    List AdmissionDecision × Store :=
  match ts with
  | [] => ([], s)
  | t :: rest =>
    let r := limiterCheck cfg key t s
    let r2 := checkSeq cfg key rest r.2
    (r.1 :: r2.1, r2.2)

theorem store_update_self (s : Store) (k : String) (v : WindowCounter) :
    (s.update k v) k = some v := by simp [Store.update]

theorem increment_fresh (s : Store) (key : String) (W now : Int)
    (hs : s key = none) :
    s.increment key W now = ((1, now + W), s.update key ⟨1, now + W⟩) := by
  unfold Store.increment
  rw [hs]

theorem increment_live (s : Store) (key : String) (W now : Int) (c : Nat)
    (R : Int) (hs : s key = some ⟨c, R⟩) (h : now ≤ R) :
    s.increment key W now = ((c + 1, R), s.update key ⟨c + 1, R⟩) := by
  unfold Store.increment
  rw [hs]
  simp [not_lt.2 h]

theorem limiterCheck_live (cfg : LimiterCfg) (key : String) (now : Int)
    (s : Store) (c : Nat) (R : Int) (hs : s key = some ⟨c, R⟩) (h : now ≤ R) :
    limiterCheck cfg key now s
      = (mkDecision cfg (c + 1) R, s.update key ⟨c + 1, R⟩) := by
  unfold limiterCheck
  rw [increment_live s key cfg.windowMs now c R hs h]

theorem checkSeq_live (cfg : LimiterCfg) (key : String) :
    ∀ (ts : List Int) (c : Nat) (R : Int) (s : Store),
      s key = some ⟨c, R⟩ → (∀ t ∈ ts, t ≤ R) →
      (checkSeq cfg key ts s).1
        = (List.range ts.length).map (fun i => mkDecision cfg (c + i + 1) R) ∧
      (checkSeq cfg key ts s).2 key = some ⟨c + ts.length, R⟩ := by
  intro ts
  induction ts with
  | nil => intro c R s hs _; exact ⟨rfl, by simpa using hs⟩
  | cons t rest ih =>
    intro c R s hs hin
    have ht : t ≤ R := hin t (List.mem_cons_self _ _)
    have hlc := limiterCheck_live cfg key t s c R hs ht
    have hupd : (s.update key ⟨c + 1, R⟩) key = some ⟨c + 1, R⟩ :=
      store_update_self s key _
    have hrest := ih (c + 1) R (s.update key ⟨c + 1, R⟩) hupd
      (fun u hu => hin u (List.mem_cons_of_mem _ hu))
    constructor
    · simp only [checkSeq, hlc]
      rw [hrest.1, List.length_cons, List.range_succ_eq_map, List.map_cons,
        List.map_map]
      congr 1
      apply List.map_congr_left
      intro i _
      have hi : c + 1 + i + 1 = c + (Nat.succ i) + 1 := by omega
      simp only [Function.comp]
      rw [hi]
    · simp only [checkSeq, hlc]
      rw [hrest.2, List.length_cons]
      have hl : c + 1 + rest.length = c + (rest.length + 1) := by omega
      rw [hl]

/-- How many of the first `n` decisions are admitted: `min n M`. -/
theorem range_admitted_count (cfg : LimiterCfg) (R : Int) :
    ∀ n : Nat,
      (((List.range n).map (fun i => mkDecision cfg (i + 1) R)).filter
        (fun d => d.admitted)).length = min n cfg.maxCount := by
  intro n
  induction n with
  | zero => simp
  | succ n ih =>
    rw [List.range_succ, List.map_append, List.filter_append,
      List.length_append, ih]
    by_cases h : n + 1 ≤ cfg.maxCount
    · have hd : decide (n + 1 ≤ cfg.maxCount) = true := decide_eq_true h
      simp [List.filter_cons, mkDecision, hd]
      omega
    · have hd : decide (n + 1 ≤ cfg.maxCount) = false := decide_eq_false h
      simp [List.filter_cons, mkDecision, hd]
      omega

/-- C2: starting from a fresh key, N `check` calls all lying inside the
first call's window produce the post-increment counts 1..N with the window
end `t0 + windowMs`; the i-th call is admitted iff its post-increment count
`i+1` is ≤ maxCount (so exactly the first min(N, maxCount) calls are
admitted and the remaining N - maxCount rejected), and every rejected
decision carries remaining = 0, as does the 429 response body built from
it. -/
theorem C2_fixed_window_counts (cfg : LimiterCfg) (key : String) (t0 : Int)
    (rest : List Int) (s : Store) (hfresh : s key = none)
    (hin : ∀ t ∈ rest, t ≤ t0 + cfg.windowMs) :
    (checkSeq cfg key (t0 :: rest) s).1
      = (List.range (rest.length + 1)).map
          (fun i => mkDecision cfg (i + 1) (t0 + cfg.windowMs)) ∧
    (∀ i, ∀ h : i < (checkSeq cfg key (t0 :: rest) s).1.length,
      ((checkSeq cfg key (t0 :: rest) s).1.get ⟨i, h⟩).admitted
        = decide (i + 1 ≤ cfg.maxCount)) ∧
    ((checkSeq cfg key (t0 :: rest) s).1.filter (fun d => d.admitted)).length
      = min (rest.length + 1) cfg.maxCount ∧
    (∀ d ∈ (checkSeq cfg key (t0 :: rest) s).1,
      (d.admitted = true ↔ d.current ≤ cfg.maxCount) ∧
      (d.admitted = false →
        d.remaining = 0 ∧ ∀ n2 : Int, (rateLimitHandler d n2).remaining = some 0)) := by
  have hfirst : limiterCheck cfg key t0 s
      = (mkDecision cfg 1 (t0 + cfg.windowMs),
         s.update key ⟨1, t0 + cfg.windowMs⟩) := by
    unfold limiterCheck
    rw [increment_fresh s key cfg.windowMs t0 hfresh]
  have hupd : (s.update key ⟨1, t0 + cfg.windowMs⟩) key
      = some ⟨1, t0 + cfg.windowMs⟩ := store_update_self s key _
  have hrest := checkSeq_live cfg key rest 1 (t0 + cfg.windowMs)
    (s.update key ⟨1, t0 + cfg.windowMs⟩) hupd hin
  have hmain : (checkSeq cfg key (t0 :: rest) s).1
      = (List.range (rest.length + 1)).map
          (fun i => mkDecision cfg (i + 1) (t0 + cfg.windowMs)) := by
    simp only [checkSeq, hfirst]
    rw [hrest.1, List.range_succ_eq_map, List.map_cons, List.map_map]
    congr 1
    apply List.map_congr_left
    intro i _
    have hi : 1 + i + 1 = Nat.succ i + 1 := by omega
    simp only [Function.comp]
    rw [hi]
  refine ⟨hmain, ?_, ?_, ?_⟩
  · intro i h
    rw [List.get_of_eq hmain ⟨i, h⟩, List.get_eq_getElem]
    simp only [List.getElem_map]
    rw [List.getElem_range]
    rfl
  · rw [hmain]
    exact range_admitted_count cfg (t0 + cfg.windowMs) (rest.length + 1)
  · rw [hmain]
    intro d hd
    obtain ⟨i, _, rfl⟩ := List.mem_map.1 hd
    refine ⟨by simp [mkDecision], ?_⟩
    intro hadm
    have hgt : ¬ (i + 1 ≤ cfg.maxCount) := by
      simpa [mkDecision] using hadm
    exact ⟨by simp [mkDecision]; omega, fun n2 => rfl⟩

/-- C2 witness: five calls against the email limiter (max 3) on a fresh
key, all inside the first window: the decisions are exactly the counts
1..5 with admitted iff count ≤ 3. -/
theorem C2_fixed_window_counts_witness :
    (checkSeq signupEmailCfg "signup:email:user@example.com"
        [0, 1, 2, 3, 4] Store.empty).1
      = (List.range 5).map
          (fun i => mkDecision signupEmailCfg (i + 1) (0 + signupEmailCfg.windowMs)) :=
  (C2_fixed_window_counts signupEmailCfg "signup:email:user@example.com" 0
    [1, 2, 3, 4] Store.empty rfl (by decide)).1

/-! ### C5 — Retry-After on rejection -/

/-- Unfolding of `retryAfterValue` at a present reset time. -/
theorem retryAfterValue_some (rt now : Int) :
    retryAfterValue (some rt) now
      = if ceilDiv1000 (rt - now) = 0 then 60 else ceilDiv1000 (rt - now) := rfl

/-- The window end a check reports never lies in the past of the call. -/
theorem limiterCheck_resetAt_ge (cfg : LimiterCfg) (key : String) (now : Int)
    (s : Store) (hW : 0 ≤ cfg.windowMs) :
    now ≤ (limiterCheck cfg key now s).1.resetAt := by
  unfold limiterCheck Store.increment
  cases hs : s key with
  | none => simp [mkDecision]; omega
  | some c =>
    simp only [mkDecision]
    split
    · simp; omega
    · simp; omega

/-- C5: on every rejection the 429 response's `Retry-After` header value is
`ceil((resetAt - now)/1000)` with the zero case sent as 60, hence always at
least 1 second. -/
theorem C5_retry_after (cfg : LimiterCfg) (key : String) (now : Int)
    (s : Store) (hW : 0 ≤ cfg.windowMs)
    (_hrej : (limiterCheck cfg key now s).1.admitted = false) :
    (rateLimitHandler (limiterCheck cfg key now s).1 now).retryAfterHeader
      = some (retryAfterValue (some ((limiterCheck cfg key now s).1.resetAt)) now) ∧
    1 ≤ retryAfterValue (some ((limiterCheck cfg key now s).1.resetAt)) now ∧
    (¬ ceilDiv1000 ((limiterCheck cfg key now s).1.resetAt - now) = 0 →
      retryAfterValue (some ((limiterCheck cfg key now s).1.resetAt)) now
        = ceilDiv1000 ((limiterCheck cfg key now s).1.resetAt - now)) := by
  have hR : now ≤ (limiterCheck cfg key now s).1.resetAt :=
    limiterCheck_resetAt_ge cfg key now s hW
  refine ⟨rfl, ?_, ?_⟩
  · rw [retryAfterValue_some]
    have hc : 0 ≤ ceilDiv1000 ((limiterCheck cfg key now s).1.resetAt - now) :=
      Int.fdiv_nonneg (by omega) (by norm_num)
    by_cases h0 : ceilDiv1000 ((limiterCheck cfg key now s).1.resetAt - now) = 0
    · norm_num [h0]
    · simp only [h0, if_false]
      omega
  · intro h
    rw [retryAfterValue_some]
    simp [h]

/-- C5 witness: a concrete rejection (email limiter, count already 3). -/
theorem C5_retry_after_witness :
    (rateLimitHandler
        (limiterCheck signupEmailCfg "k" 500
          (Store.empty.update "k" ⟨3, 1000⟩)).1 500).retryAfterHeader
      = some (retryAfterValue
          (some ((limiterCheck signupEmailCfg "k" 500
            (Store.empty.update "k" ⟨3, 1000⟩)).1.resetAt)) 500) ∧
    1 ≤ retryAfterValue
        (some ((limiterCheck signupEmailCfg "k" 500
          (Store.empty.update "k" ⟨3, 1000⟩)).1.resetAt)) 500 := by
  have h := C5_retry_after signupEmailCfg "k" 500
    (Store.empty.update "k" ⟨3, 1000⟩) (by decide) (by decide)
  exact ⟨h.1, h.2.1⟩

/-! ### C1 — guard order and short-circuit -/

/-- A state whose IP counter for `reqOk`'s address is already at the
maximum (5) inside an open window, with all other stores fresh. -/
def ipExhaustedState : PipelineState :=
  { emptyState with
    ipStore := Store.empty.update (signupIpKey reqOk) ⟨5, 1000000⟩ }

/-- A state whose email counter for `reqOk`'s (normalized) email is already
at the maximum (3) inside an open window, with all other stores fresh. -/
def emailExhaustedState : PipelineState :=
  { emptyState with
    emailStore := Store.empty.update (emailKeyOf "user@example.com") ⟨3, 1000000⟩ }

/-- C1: the signup guards run in the order SlowDown, IP-limiter,
email-limiter, device-limiter, and once one guard has rejected no later
guard runs and no later guard's counter is incremented: a global-limiter
rejection leaves the slow-down, IP, email and device stores untouched; an
IP-limiter rejection leaves the email-limiter's and device-limiter's stores
untouched — in particular the email counter for the request's email; an
email-limiter rejection leaves the device-limiter's store untouched; and a
device-limiter rejection still stops before the handler.  In every case the
response is the 429 built from the rejecting guard's own decision, and
neither link generation nor mail delivery is called. -/
theorem C1_rejection_short_circuits (req : Request) (now : Int)
    (st : PipelineState) (link : LinkResult) (mail : MailResult)
    (hskip : skipStaticPaths req.path = false) :
    ((limiterCheck globalCfg (ipKeyGenerator req) now st.globalStore).1.admitted = false →
      (signupRoute req now st link mail).state.slowStore = st.slowStore ∧
      (signupRoute req now st link mail).state.ipStore = st.ipStore ∧
      (signupRoute req now st link mail).state.emailStore = st.emailStore ∧
      (signupRoute req now st link mail).state.deviceStore = st.deviceStore ∧
      (signupRoute req now st link mail).response
        = rateLimitHandler
            (limiterCheck globalCfg (ipKeyGenerator req) now st.globalStore).1 now ∧
      (signupRoute req now st link mail).linkCalled = false ∧
      (signupRoute req now st link mail).mailCalled = false) ∧
    ((limiterCheck globalCfg (ipKeyGenerator req) now st.globalStore).1.admitted = true →
      (limiterCheck signupIpCfg (signupIpKey req) now st.ipStore).1.admitted = false →
      (signupRoute req now st link mail).state.emailStore = st.emailStore ∧
      (signupRoute req now st link mail).state.deviceStore = st.deviceStore ∧
      (signupRoute req now st link mail).response
        = rateLimitHandler
            (limiterCheck signupIpCfg (signupIpKey req) now st.ipStore).1 now ∧
      (signupRoute req now st link mail).linkCalled = false ∧
      (signupRoute req now st link mail).mailCalled = false) ∧
    (∀ ekey : String,
      (limiterCheck globalCfg (ipKeyGenerator req) now st.globalStore).1.admitted = true →
      (limiterCheck signupIpCfg (signupIpKey req) now st.ipStore).1.admitted = true →
      emailKeyGen req.body = Except.ok ekey →
      (limiterCheck signupEmailCfg ekey now st.emailStore).1.admitted = false →
      (signupRoute req now st link mail).state.deviceStore = st.deviceStore ∧
      (signupRoute req now st link mail).response
        = rateLimitHandler
            (limiterCheck signupEmailCfg ekey now st.emailStore).1 now ∧
      (signupRoute req now st link mail).linkCalled = false ∧
      (signupRoute req now st link mail).mailCalled = false) ∧
    (∀ ekey : String,
      (limiterCheck globalCfg (ipKeyGenerator req) now st.globalStore).1.admitted = true →
      (limiterCheck signupIpCfg (signupIpKey req) now st.ipStore).1.admitted = true →
      emailKeyGen req.body = Except.ok ekey →
      (limiterCheck signupEmailCfg ekey now st.emailStore).1.admitted = true →
      (limiterCheck signupDeviceCfg (deviceKey req) now st.deviceStore).1.admitted = false →
      (signupRoute req now st link mail).response
        = rateLimitHandler
            (limiterCheck signupDeviceCfg (deviceKey req) now st.deviceStore).1 now ∧
      (signupRoute req now st link mail).linkCalled = false ∧
      (signupRoute req now st link mail).mailCalled = false) := by
  refine ⟨?_, ?_, ?_, ?_⟩
  · intro hg
    unfold signupRoute signupRest
    simp [hskip, hg]
  · intro hg hip
    unfold signupRoute signupRest
    simp [hskip, hg, hip]
  · intro ekey hg hip hek he
    unfold signupRoute signupRest
    simp [hskip, hg, hip, hek, he]
  · intro ekey hg hip hek he hd
    unfold signupRoute signupRest
    simp [hskip, hg, hip, hek, he, hd]

/-- C1 witness: a concrete state in which the email counter for the
request's email is exhausted (count 3 of max 3, window open) while the IP
quota is still open: the email-limiter rejects, the device-limiter's store
is untouched and no external call runs. -/
theorem C1_rejection_short_circuits_witness :
    (signupRoute reqOk 500 emailExhaustedState (LinkResult.ok "L") MailResult.ok).state.deviceStore
        = emailExhaustedState.deviceStore ∧
    (signupRoute reqOk 500 emailExhaustedState (LinkResult.ok "L") MailResult.ok).response
        = rateLimitHandler
            (limiterCheck signupEmailCfg (emailKeyOf "user@example.com") 500
              emailExhaustedState.emailStore).1 500 ∧
    (signupRoute reqOk 500 emailExhaustedState (LinkResult.ok "L") MailResult.ok).linkCalled = false ∧
    (signupRoute reqOk 500 emailExhaustedState (LinkResult.ok "L") MailResult.ok).mailCalled = false :=
  (C1_rejection_short_circuits reqOk 500 emailExhaustedState (LinkResult.ok "L")
      MailResult.ok (by decide)).2.2.1 (emailKeyOf "user@example.com")
    (by decide) (by decide) rfl (by decide)

/-! ### C10 — the spec-unlisted global limiter stage -/

/-- The four signup-specific guards never touch the global limiter's
store. -/
theorem signupRest_globalStore (req : Request) (now : Int) (st : PipelineState)
    (link : LinkResult) (mail : MailResult) :
    (signupRest req now st link mail).state.globalStore = st.globalStore := by
  unfold signupRest
  by_cases hip : (limiterCheck signupIpCfg (signupIpKey req) now st.ipStore).1.admitted = true
  · simp only [hip, if_true]
    cases hek : emailKeyGen req.body with
    | error e => rfl
    | ok k =>
      simp only []
      by_cases he : (limiterCheck signupEmailCfg k now st.emailStore).1.admitted = true
      · simp only [he, if_true]
        by_cases hd : (limiterCheck signupDeviceCfg (deviceKey req) now st.deviceStore).1.admitted = true
        · simp [hd]
        · simp [hd]
      · simp [he]
  · simp [hip]

/-- C10: every request to `POST /api/signup` first passes the global
per-IP limiter (300 requests per 15-minute window), which consumes one
increment of its counter on the pristine store regardless of what any of
the four later signup guards decide. -/
theorem C10_global_limiter_runs_first (req : Request) (now : Int)
    (st : PipelineState) (link : LinkResult) (mail : MailResult)
    (hpath : req.path = "/api/signup") :
    (signupRoute req now st link mail).state.globalStore
      = (st.globalStore.increment (ipKeyGenerator req) globalCfg.windowMs now).2 ∧
    globalCfg.maxCount = 300 ∧
    globalCfg.windowMs = 15 * 60 * 1000 ∧
    skipStaticPaths "/api/signup" = false := by
  have hskip : skipStaticPaths req.path = false := by rw [hpath]; decide
  refine ⟨?_, rfl, rfl, by decide⟩
  unfold signupRoute
  simp only [hskip, Bool.false_eq_true, if_false]
  by_cases hg : (limiterCheck globalCfg (ipKeyGenerator req) now st.globalStore).1.admitted = true
  · rw [if_pos hg, signupRest_globalStore]
    rfl
  · rw [if_neg hg]
    rfl

/-- C10 witness: a concrete signup request against fresh stores. -/
theorem C10_global_limiter_runs_first_witness :
    (signupRoute reqOk 0 emptyState (LinkResult.ok "L") MailResult.ok).state.globalStore
      = (emptyState.globalStore.increment (ipKeyGenerator reqOk) globalCfg.windowMs 0).2 ∧
    globalCfg.maxCount = 300 ∧
    globalCfg.windowMs = 15 * 60 * 1000 ∧
    skipStaticPaths "/api/signup" = false :=
  C10_global_limiter_runs_first reqOk 0 emptyState (LinkResult.ok "L")
    MailResult.ok rfl

/-! ### C4 — validation rejections and the absent-email case -/

/-- C4 counterexample: a signup request with no email at all is answered
with status 500 ("Internal server error", from the thrown key-generation
error reaching the global error handler), not with the claimed HTTP 400. -/
theorem C4_counterexample :
    (signupRoute reqNoEmail 0 emptyState (LinkResult.ok "L") MailResult.ok).response.status = 500 ∧
    ¬ (signupRoute reqNoEmail 0 emptyState (LinkResult.ok "L") MailResult.ok).response.status = 400 := by
  decide

/-- C4 (amended): a body failing one of the handler's validation checks
(present-but-invalid email, short password, over-long name) is answered
with HTTP 400 carrying that check's field-specific message and no external
call is made; a request whose email is absent, however, never reaches the
handler: the email key strategy throws, the limiter chain hard-rejects via
the global error handler with HTTP 500 "Internal server error" — not 400 —
again without external calls and without touching the email or device
counters. -/
theorem C4_validation_and_missing_email (req : Request) (now : Int)
    (st : PipelineState) (link : LinkResult) (mail : MailResult)
    (hskip : skipStaticPaths req.path = false)
    (hg : (limiterCheck globalCfg (ipKeyGenerator req) now st.globalStore).1.admitted = true)
    (hip : (limiterCheck signupIpCfg (signupIpKey req) now st.ipStore).1.admitted = true)
    (habs : strFalsy req.body.email = true) :
    (signupRoute req now st link mail).response = errorHandlerResponse ∧
    (signupRoute req now st link mail).response.status = 500 ∧
    (signupRoute req now st link mail).linkCalled = false ∧
    (signupRoute req now st link mail).mailCalled = false ∧
    (signupRoute req now st link mail).state.emailStore = st.emailStore ∧
    (signupRoute req now st link mail).state.deviceStore = st.deviceStore ∧
    (∀ (b : SignupBody) (msg : String), firstValidationError b = some msg →
      signupHandler b link mail
        = ⟨⟨400, some msg, none, none, none, none, none⟩, false, false⟩) := by
  have hkey : emailKeyGen req.body = Except.error KeyGenFailure.emailRequired := by
    unfold emailKeyGen
    rw [habs]
    rfl
  have hB : ∀ (b : SignupBody) (msg : String), firstValidationError b = some msg →
      signupHandler b link mail
        = ⟨⟨400, some msg, none, none, none, none, none⟩, false, false⟩ := by
    intro b msg hv
    unfold signupHandler
    rw [hv]
  refine ⟨?_, ?_, ?_, ?_, ?_, ?_, hB⟩
  all_goals
    unfold signupRoute signupRest
    simp [hskip, hg, hip, hkey, errorHandlerResponse]

/-- C4 witness: the amended statement at the concrete no-email request. -/
theorem C4_validation_and_missing_email_witness :
    (signupRoute reqNoEmail 0 emptyState (LinkResult.ok "L") MailResult.ok).response
      = errorHandlerResponse ∧
    (signupRoute reqNoEmail 0 emptyState (LinkResult.ok "L") MailResult.ok).response.status = 500 :=
  ⟨(C4_validation_and_missing_email reqNoEmail 0 emptyState (LinkResult.ok "L")
      MailResult.ok (by decide) (by decide) (by decide) (by decide)).1,
   (C4_validation_and_missing_email reqNoEmail 0 emptyState (LinkResult.ok "L")
      MailResult.ok (by decide) (by decide) (by decide) (by decide)).2.1⟩

/-! ### C6 — external failure mapping -/

/-- C6: for a body that passes validation, a link-generation error whose
message contains "already registered" is answered 409 "Email already
registered"; any other link-generation error and any mail-delivery failure
are answered 500 with only the generic message (no provider detail appears
anywhere in the response). -/
theorem C6_external_failures (body : SignupBody) (mail : MailResult)
    (m lnk em : String) (hvalid : firstValidationError body = none) :
    (strContains m "already registered" = true →
      signupHandler body (LinkResult.err m) mail
        = ⟨⟨409, some "Email already registered", none, none, none, none, none⟩,
           true, false⟩) ∧
    (strContains m "already registered" = false →
      signupHandler body (LinkResult.err m) mail
        = ⟨⟨500, some "Error processing signup. Please try again later.",
            none, none, none, none, none⟩, true, false⟩) ∧
    (signupHandler body (LinkResult.ok lnk) (MailResult.err em)
      = ⟨⟨500, some "Error processing signup. Please try again later.",
          none, none, none, none, none⟩, true, true⟩) := by
  refine ⟨?_, ?_, ?_⟩
  · intro h
    unfold signupHandler
    rw [hvalid]
    simp [h]
  · intro h
    unfold signupHandler
    rw [hvalid]
    simp [h]
  · unfold signupHandler
    rw [hvalid]

/-- C6 witness: the 409 branch at a concrete valid body and the provider
message "User already registered". -/
theorem C6_external_failures_witness :
    signupHandler ⟨some "u@x.io", some "password123", none, none⟩
        (LinkResult.err "User already registered") MailResult.ok
      = ⟨⟨409, some "Email already registered", none, none, none, none, none⟩,
         true, false⟩ :=
  (C6_external_failures ⟨some "u@x.io", some "password123", none, none⟩
    MailResult.ok "User already registered" "L" "x" (by decide)).1 (by decide)

end Lariyu
